import Mathlib

/-!
Verification of the user-ledger and response-engine core of the bot
(`main.py` / `config.py`).

The durable store `users_database.txt` holds one record per Telegram
identity with fields `unique_id | credits | city | free_messages_used`.
We embed the store as an association list keyed by the Telegram id, in
file order; `load_user_database` followed by the dict operations of the
Python code is modelled by direct operations on that list (a Python dict
preserves insertion order, updates in place, and appends new keys at the
end, which is exactly the behaviour of `replaceKey` / append below).

Randomness (`random.choices` in `generate_user_id`, `random.choice` in
the response engine) is modelled by explicit parameters: a list `gen` of
candidate codes standing for the stream of generated ids, and a natural
number index standing for the random choice among candidates.
-/

/-- One user record of `users_database.txt`: the four data fields of a
line `telegram_id|unique_id|credits|city|free_messages_used`. -/
structure UserData where
  unique_id : String
  credits : Int
  city : String
  free_messages_used : Nat
deriving DecidableEq, Repr

/-- The durable store: association list from Telegram id to record,
in file (= insertion) order. -/
abbrev Store := List (Nat × UserData)

/-- Value of `FREE_MESSAGES_LIMIT` in `config.py`. -/
def FREE_MESSAGES_LIMIT : Nat := 2

/-- Value of `CREDITS_PER_MESSAGE` in `config.py`. -/
def CREDITS_PER_MESSAGE : Int := 2

/-- Dictionary lookup `users[telegram_id]` (first entry with the key;
keys are unique in any store produced by the code). -/
def lookupUser : Store → Nat → Option UserData
  | [], _ => none
  | (k, d) :: rest, tid => if k = tid then some d else lookupUser rest tid

/-- Test `telegram_id in users`. -/
def hasKey : Store → Nat → Bool
  | [], _ => false
  | (k, _) :: rest, tid => decide (k = tid) || hasKey rest tid

/-- Dict assignment on an existing key: replace the value in place,
keeping insertion order. -/
def replaceKey : Store → Nat → UserData → Store
  | [], _, _ => []
  | (k, d0) :: rest, tid, d =>
      if k = tid then (tid, d) :: replaceKey rest tid d
      else (k, d0) :: replaceKey rest tid d

/-- Dict assignment `users[telegram_id] = data`: replace in place when
the key exists, otherwise append at the end. -/
def setUser (s : Store) (tid : Nat) (d : UserData) : Store :=
  if hasKey s tid then replaceKey s tid d else s ++ [(tid, d)]

/-- Function `save_user_to_database` (main.py 126-150): load the store, preserve
the stored `city` when the argument is the sentinel `"non selezionata"`
and the stored `free_messages_used` when the argument is `0`, then write
the record back under `telegram_id` and rewrite the whole file from the
freshly loaded state. -/
def save_user_to_database (s : Store) (telegram_id : Nat) (unique_id : String)
    (credits : Int) (city : String) (free_messages_used : Nat) : Store :=
  match lookupUser s telegram_id with
  | some old =>
      let city := if city = "non selezionata" then old.city else city
      let free_messages_used :=
        if free_messages_used = 0 then old.free_messages_used else free_messages_used
      setUser s telegram_id ⟨unique_id, credits, city, free_messages_used⟩
  | none => setUser s telegram_id ⟨unique_id, credits, city, free_messages_used⟩

/-- Test whether some record of the store already carries the code `c`
(the collision test of the `while` loop in `get_or_create_user`). -/
def codeUsed (s : Store) (c : String) : Bool :=
  s.any (fun p => p.2.unique_id == c)

/-- The retry loop of `get_or_create_user` (main.py 164-167): draw codes
from the stream `gen` of `generate_user_id` outputs until one collides
with no existing record. `none` models the (probability-zero) case that
the supplied stream never produces a fresh code, where the Python loop
would not terminate. -/
def fresh_unique_id : List String → Store → Option String
  | [], _ => none
  | c :: rest, s => if codeUsed s c then fresh_unique_id rest s else some c

/-- Function `get_or_create_user` (main.py 152-170): return the stored record, or
create one with 0 credits, sentinel city and 0 free messages used under a
freshly generated unique code. Returns the 4-tuple the Python function
returns together with the resulting durable store. -/
def get_or_create_user (gen : List String) (s : Store) (telegram_id : Nat) :
    Option ((String × Int × String × Nat) × Store) :=
  match lookupUser s telegram_id with
  | some d => some ((d.unique_id, d.credits, d.city, d.free_messages_used), s)
  | none =>
      match fresh_unique_id gen s with
      | some uid =>
          some ((uid, 0, "non selezionata", 0),
            save_user_to_database s telegram_id uid 0 "non selezionata" 0)
      | none => none

/-! Basic lemmas about the association-list store. -/

theorem lookupUser_eq_none_iff (s : Store) (t : Nat) :
    lookupUser s t = none ↔ hasKey s t = false := by
  induction s with
  | nil => simp [lookupUser, hasKey]
  | cons p rest ih =>
      obtain ⟨k, d⟩ := p
      by_cases hk : k = t <;> simp [lookupUser, hasKey, hk, ih]

theorem lookupUser_append (s l2 : Store) (t : Nat) :
    lookupUser (s ++ l2) t =
      (match lookupUser s t with
        | some d => some d
        | none => lookupUser l2 t) := by
  induction s with
  | nil => simp [lookupUser]
  | cons p rest ih =>
      obtain ⟨k, d⟩ := p
      by_cases hk : k = t <;> simp [lookupUser, hk, ih]

theorem lookupUser_replaceKey_self (s : Store) (tid : Nat) (d : UserData)
    (h : hasKey s tid = true) : lookupUser (replaceKey s tid d) tid = some d := by
  induction s with
  | nil => simp [hasKey] at h
  | cons p rest ih =>
      obtain ⟨k, d0⟩ := p
      by_cases hk : k = tid
      · simp [replaceKey, lookupUser, hk]
      · simp [hasKey, hk] at h
        simp [replaceKey, lookupUser, hk, ih h]

theorem lookupUser_setUser_self (s : Store) (tid : Nat) (d : UserData) :
    lookupUser (setUser s tid d) tid = some d := by
  unfold setUser
  by_cases h : hasKey s tid
  · simp [h, lookupUser_replaceKey_self s tid d h]
  · have hn : lookupUser s tid = none := (lookupUser_eq_none_iff s tid).2 (by simp [h])
    simp [h, lookupUser_append, hn, lookupUser]

theorem lookupUser_replaceKey_ne (s : Store) (tid t : Nat) (d : UserData)
    (h : t ≠ tid) : lookupUser (replaceKey s tid d) t = lookupUser s t := by
  induction s with
  | nil => simp [replaceKey]
  | cons p rest ih =>
      obtain ⟨k, d0⟩ := p
      by_cases hk : k = tid
      · have : ¬ tid = t := fun hc => h hc.symm
        simp [replaceKey, lookupUser, hk, this, ih]
      · simp [replaceKey, lookupUser, hk, ih]

theorem lookupUser_setUser_ne (s : Store) (tid t : Nat) (d : UserData)
    (h : t ≠ tid) : lookupUser (setUser s tid d) t = lookupUser s t := by
  unfold setUser
  by_cases hh : hasKey s tid
  · simp [hh, lookupUser_replaceKey_ne s tid t d h]
  · have : ¬ tid = t := fun hc => h hc.symm
    simp [hh, lookupUser_append, lookupUser, this]
    split <;> simp_all

/-- Looking up the saved identity after a save: the code and credits are
written as given, city and free-message count go through the
sentinel-preservation branches. -/
theorem lookupUser_save_self (s : Store) (tid : Nat) (d : UserData)
    (h : lookupUser s tid = some d) (uid : String) (c : Int) (city : String) (f : Nat) :
    lookupUser (save_user_to_database s tid uid c city f) tid
      = some ⟨uid, c, if city = "non selezionata" then d.city else city,
          if f = 0 then d.free_messages_used else f⟩ := by
  unfold save_user_to_database
  rw [h]
  exact lookupUser_setUser_self ..

/-- Looking up a freshly saved identity (no prior record). -/
theorem lookupUser_save_self_new (s : Store) (tid : Nat)
    (h : lookupUser s tid = none) (uid : String) (c : Int) (city : String) (f : Nat) :
    lookupUser (save_user_to_database s tid uid c city f) tid = some ⟨uid, c, city, f⟩ := by
  unfold save_user_to_database
  rw [h]
  exact lookupUser_setUser_self ..

/-- C6: saving identity A leaves every other identity's record intact:
`save_user_to_database` rewrites the file from the freshly loaded store,
so a record of identity B present in the durable store survives a save
for A ≠ B unchanged in all fields. -/
theorem save_preserves_other_identities (s : Store) (tidA tidB : Nat) (dB : UserData)
    (hne : tidA ≠ tidB) (hB : lookupUser s tidB = some dB)
    (uid : String) (c : Int) (city : String) (f : Nat) :
    lookupUser (save_user_to_database s tidA uid c city f) tidB = some dB := by
  have hne' : tidB ≠ tidA := fun hc => hne hc.symm
  unfold save_user_to_database
  cases hl : lookupUser s tidA <;>
    simp [lookupUser_setUser_ne _ _ _ _ hne', hB]

theorem save_preserves_other_identities_witness :
    lookupUser
        (save_user_to_database [(2, ⟨"BBBBB", 3, "Roma", 1⟩)] 1 "AAAAA" 7 "Milano" 2) 2
      = some ⟨"BBBBB", 3, "Roma", 1⟩ :=
  save_preserves_other_identities [(2, ⟨"BBBBB", 3, "Roma", 1⟩)] 1 2
    ⟨"BBBBB", 3, "Roma", 1⟩ (by decide) (by decide) "AAAAA" 7 "Milano" 2

/-- C10: for an identity that already has a stored record, a save called
with the sentinel city `"non selezionata"` keeps the previously stored
city, and a save called with `free_messages_used = 0` keeps the
previously stored free-message count: the sentinel arguments can never
overwrite existing stored values. -/
theorem save_sentinel_preserves (s : Store) (tid : Nat) (d : UserData)
    (h : lookupUser s tid = some d) (uid : String) (c : Int) (city : String) (f : Nat) :
    (city = "non selezionata" →
      lookupUser (save_user_to_database s tid uid c city f) tid
        = some ⟨uid, c, d.city, if f = 0 then d.free_messages_used else f⟩) ∧
    (f = 0 →
      lookupUser (save_user_to_database s tid uid c city f) tid
        = some ⟨uid, c, if city = "non selezionata" then d.city else city,
            d.free_messages_used⟩) := by
  constructor
  · intro hc
    rw [lookupUser_save_self s tid d h uid c city f]
    simp [hc]
  · intro hf
    rw [lookupUser_save_self s tid d h uid c city f]
    simp [hf]

theorem save_sentinel_preserves_witness :
    lookupUser
        (save_user_to_database [(5, ⟨"CCCCC", 4, "Torino", 2⟩)] 5 "CCCCC" 9
          "non selezionata" 0) 5
      = some ⟨"CCCCC", 9, "Torino", 2⟩ := by
  have h := (save_sentinel_preserves [(5, ⟨"CCCCC", 4, "Torino", 2⟩)] 5
    ⟨"CCCCC", 4, "Torino", 2⟩ (by decide) "CCCCC" 9 "non selezionata" 0).1 rfl
  simpa using h

/-! The quota engine and the admin recharge command. -/

/-- Function `can_user_send_message` (main.py 666-684): a pure decision in the
Python source, except that `get_or_create_user` may create (and persist)
a record for an unseen identity. Returns the `(bool, reason)` pair
together with the resulting durable store. -/
def can_user_send_message (gen : List String) (s : Store) (user_id : Nat) :
    Option (Bool × String × Store) :=
  match get_or_create_user gen s user_id with
  | none => none
  | some ((_, credits, _, free_messages_used), s1) =>
      if free_messages_used < FREE_MESSAGES_LIMIT then some (true, "free", s1)
      else if credits ≥ CREDITS_PER_MESSAGE then some (true, "credits", s1)
      else some (false, "no_credits", s1)

/-- Function `consume_user_message` (main.py 686-706): use a free message first,
else deduct `CREDITS_PER_MESSAGE` credits, else deny without mutation. -/
def consume_user_message (gen : List String) (s : Store) (user_id : Nat) :
    Option (Bool × String × Store) :=
  match get_or_create_user gen s user_id with
  | none => none
  | some ((unique_id, credits, city, free_messages_used), s1) =>
      if free_messages_used < FREE_MESSAGES_LIMIT then
        some (true, "free_message_used",
          save_user_to_database s1 user_id unique_id credits city (free_messages_used + 1))
      else if credits ≥ CREDITS_PER_MESSAGE then
        some (true, "credits_used",
          save_user_to_database s1 user_id unique_id (credits - CREDITS_PER_MESSAGE) city
            free_messages_used)
      else some (false, "insufficient_credits", s1)

/-- Function `find_user_by_unique_id` (main.py 172-180): first record, in file
order, whose code matches; returns its Telegram id, credits and city. -/
def find_user_by_unique_id : Store → String → Option (Nat × Int × String)
  | [], _ => none
  | (k, d) :: rest, uid =>
      if d.unique_id = uid then some (k, d.credits, d.city)
      else find_user_by_unique_id rest uid

/-- Ledger-mutating core of `handle_recharge_command` (main.py 968-991),
after the admin and arity checks of the transport layer: reject a
negative amount before any mutation, look the target up by its unique
code, re-read its free-message count, and set the credit balance to the
given amount absolutely. -/
def handle_recharge_command (gen : List String) (s : Store) (amount : Int)
    (unique_id : String) : Store :=
  if amount < 0 then s
  else
    match find_user_by_unique_id s unique_id with
    | none => s
    | some (target_telegram_id, _, current_city) =>
        match get_or_create_user gen s target_telegram_id with
        | some ((_, _, _, free_messages_used), s1) =>
            save_user_to_database s1 target_telegram_id unique_id amount current_city
              free_messages_used
        | none => s

/-- One ledger operation of the kind claim C1 ranges over, carrying the
random-code stream its `get_or_create_user` call may draw from. -/
inductive LedgerOp where
  | consume (gen : List String) (user_id : Nat)
  | setCredits (gen : List String) (amount : Int) (unique_id : String)

/-- Apply one ledger operation to the durable store. -/
def applyOp (s : Store) : LedgerOp → Store
  | .consume gen user_id =>
      match consume_user_message gen s user_id with
      | some (_, _, s1) => s1
      | none => s
  | .setCredits gen amount unique_id => handle_recharge_command gen s amount unique_id

/-- Run a sequence of ledger operations. -/
def runOps (s : Store) (ops : List LedgerOp) : Store := ops.foldl applyOp s

/-- Every record of the store has a non-negative credit balance. -/
def nonnegStore (s : Store) : Prop := ∀ p ∈ s, 0 ≤ p.2.credits

instance (s : Store) : Decidable (nonnegStore s) := by
  unfold nonnegStore; infer_instance

/-! Membership lemmas feeding the non-negativity invariant. -/

theorem mem_replaceKey (s : Store) (tid : Nat) (d : UserData) (p : Nat × UserData)
    (h : p ∈ replaceKey s tid d) : p ∈ s ∨ p = (tid, d) := by
  induction s with
  | nil => simp [replaceKey] at h
  | cons q rest ih =>
      obtain ⟨k, d0⟩ := q
      by_cases hk : k = tid
      · simp [replaceKey, hk] at h
        rcases h with h | h
        · right; simp [h]
        · rcases ih h with h' | h'
          · left; exact List.mem_cons_of_mem _ h'
          · right; exact h'
      · simp [replaceKey, hk] at h
        rcases h with h | h
        · left; simp [h]
        · rcases ih h with h' | h'
          · left; exact List.mem_cons_of_mem _ h'
          · right; exact h'

theorem mem_setUser (s : Store) (tid : Nat) (d : UserData) (p : Nat × UserData)
    (h : p ∈ setUser s tid d) : p ∈ s ∨ p = (tid, d) := by
  unfold setUser at h
  by_cases hh : hasKey s tid
  · simp [hh] at h
    exact mem_replaceKey s tid d p h
  · simp [hh] at h
    rcases h with h | h
    · left; exact h
    · right; simp [h]

theorem mem_save (s : Store) (tid : Nat) (uid : String) (c : Int) (city : String)
    (f : Nat) (p : Nat × UserData)
    (h : p ∈ save_user_to_database s tid uid c city f) : p ∈ s ∨ p.2.credits = c := by
  unfold save_user_to_database at h
  rcases hl : lookupUser s tid with _ | old <;> rw [hl] at h
  · rcases mem_setUser _ _ _ _ h with h' | h'
    · left; exact h'
    · right; simp [h']
  · rcases mem_setUser _ _ _ _ h with h' | h'
    · left; exact h'
    · right; simp [h']

theorem lookupUser_mem (s : Store) (t : Nat) (d : UserData)
    (h : lookupUser s t = some d) : (t, d) ∈ s := by
  induction s with
  | nil => simp [lookupUser] at h
  | cons q rest ih =>
      obtain ⟨k, d0⟩ := q
      by_cases hk : k = t
      · simp [lookupUser, hk] at h
        simp [hk, h]
      · simp [lookupUser, hk] at h
        exact List.mem_cons_of_mem _ (ih h)

theorem nonneg_save (s : Store) (tid : Nat) (uid : String) (c : Int) (city : String)
    (f : Nat) (hs : nonnegStore s) (hc : 0 ≤ c) :
    nonnegStore (save_user_to_database s tid uid c city f) := by
  intro p hp
  rcases mem_save s tid uid c city f p hp with h | h
  · exact hs p h
  · rw [h]; exact hc

/-- The 4-tuple returned by `get_or_create_user` has non-negative
credits, and the resulting store is non-negative, whenever the input
store is. -/
theorem get_or_create_user_nonneg (gen : List String) (s : Store) (tid : Nat)
    (hs : nonnegStore s) (r : (String × Int × String × Nat) × Store)
    (h : get_or_create_user gen s tid = some r) :
    0 ≤ r.1.2.1 ∧ nonnegStore r.2 := by
  unfold get_or_create_user at h
  rcases hl : lookupUser s tid with _ | d <;> rw [hl] at h
  · rcases hf : fresh_unique_id gen s with _ | uid <;> rw [hf] at h
    · exact absurd h (by simp)
    · have hr : r = ((uid, 0, "non selezionata", 0),
          save_user_to_database s tid uid 0 "non selezionata" 0) := by
        exact (Option.some_injective _ h).symm
      subst hr
      exact ⟨le_refl 0, nonneg_save s tid uid 0 "non selezionata" 0 hs (le_refl 0)⟩
  · have hr : r = ((d.unique_id, d.credits, d.city, d.free_messages_used), s) := by
      exact (Option.some_injective _ h).symm
    subst hr
    exact ⟨hs (tid, d) (lookupUser_mem s tid d hl), hs⟩

/-- One step of the C1 invariant: each ledger operation preserves
non-negativity of all credit balances. -/
theorem applyOp_nonneg (s : Store) (op : LedgerOp) (hs : nonnegStore s) :
    nonnegStore (applyOp s op) := by
  cases op with
  | consume gen user_id =>
      unfold applyOp consume_user_message
      rcases hg : get_or_create_user gen s user_id with _ | r
      · simpa [hg] using hs
      · obtain ⟨⟨uid, credits, city, fmu⟩, s1⟩ := r
        obtain ⟨hcred, hs1⟩ := get_or_create_user_nonneg gen s user_id hs _ hg
        simp only at hcred
        by_cases h1 : fmu < FREE_MESSAGES_LIMIT
        · simpa [hg, h1] using nonneg_save s1 user_id uid credits city (fmu + 1) hs1 hcred
        · by_cases h2 : credits ≥ CREDITS_PER_MESSAGE
          · have : (0 : Int) ≤ credits - CREDITS_PER_MESSAGE := by
              unfold CREDITS_PER_MESSAGE at h2 ⊢; omega
            simpa [hg, h1, h2] using
              nonneg_save s1 user_id uid (credits - CREDITS_PER_MESSAGE) city fmu hs1 this
          · simpa [hg, h1, h2] using hs1
  | setCredits gen amount unique_id =>
      unfold applyOp handle_recharge_command
      by_cases ha : amount < 0
      · simpa [ha] using hs
      · rcases hfind : find_user_by_unique_id s unique_id with _ | t
        · simpa [ha, hfind] using hs
        · obtain ⟨tid, cr, city⟩ := t
          rcases hg : get_or_create_user gen s tid with _ | r
          · simpa [ha, hfind, hg] using hs
          · obtain ⟨⟨uid', credits', city', fmu⟩, s1⟩ := r
            obtain ⟨-, hs1⟩ := get_or_create_user_nonneg gen s tid hs _ hg
            have hax : 0 ≤ amount := by omega
            simpa [ha, hfind, hg] using
              nonneg_save s1 tid unique_id amount city fmu hs1 hax

/-- C1: starting from any store whose balances are all non-negative,
every sequence of `consume_user_message` and recharge operations keeps
every record's credit balance non-negative: consume deducts
`CREDITS_PER_MESSAGE` only when the balance covers it, and the recharge
command rejects negative amounts before any mutation. -/
theorem credit_balance_never_negative (s : Store) (hs : nonnegStore s)
    (ops : List LedgerOp) : nonnegStore (runOps s ops) := by
  induction ops generalizing s with
  | nil => simpa [runOps] using hs
  | cons op rest ih =>
      have h1 : nonnegStore (applyOp s op) := applyOp_nonneg s op hs
      simpa [runOps, List.foldl_cons] using ih (applyOp s op) h1

theorem credit_balance_never_negative_witness :
    nonnegStore
      (runOps [(1, ⟨"AAAAA", 1, "Roma", 2⟩)]
        [LedgerOp.setCredits [] 5 "AAAAA",
         LedgerOp.consume ["BBBBB"] 1,
         LedgerOp.consume ["CCCCC"] 2,
         LedgerOp.setCredits [] (-7) "AAAAA"]) :=
  credit_balance_never_negative [(1, ⟨"AAAAA", 1, "Roma", 2⟩)] (by decide)
    [LedgerOp.setCredits [] 5 "AAAAA",
     LedgerOp.consume ["BBBBB"] 1,
     LedgerOp.consume ["CCCCC"] 2,
     LedgerOp.setCredits [] (-7) "AAAAA"]

/-- Saving back a record with its own data fields, under a non-zero
free-message count: the sentinel-preservation branches cannot change
anything, so the stored record is exactly the one written. -/
theorem lookupUser_save_self_same_city (s : Store) (tid : Nat) (d : UserData)
    (h : lookupUser s tid = some d) (uid : String) (c : Int) (f : Nat) (hf : f ≠ 0) :
    lookupUser (save_user_to_database s tid uid c d.city f) tid
      = some ⟨uid, c, d.city, f⟩ := by
  rw [lookupUser_save_self s tid d h uid c d.city f]
  simp [hf]

/-- C3: a record with `free_messages_used = 0` consumes its first two
messages for free, each incrementing only the free-message count; the
third consume deducts exactly `CREDITS_PER_MESSAGE` from the balance
when it suffices and is denied (with no mutation) otherwise. Each
successful consume changes exactly one of the two metered fields. -/
theorem fresh_record_consume_sequence (gen1 gen2 gen3 : List String) (s : Store)
    (tid : Nat) (uid city : String) (c : Int)
    (h : lookupUser s tid = some ⟨uid, c, city, 0⟩) :
    ∃ s1 s2,
      consume_user_message gen1 s tid = some (true, "free_message_used", s1) ∧
      lookupUser s1 tid = some ⟨uid, c, city, 1⟩ ∧
      consume_user_message gen2 s1 tid = some (true, "free_message_used", s2) ∧
      lookupUser s2 tid = some ⟨uid, c, city, 2⟩ ∧
      (CREDITS_PER_MESSAGE ≤ c →
        ∃ s3, consume_user_message gen3 s2 tid = some (true, "credits_used", s3) ∧
          lookupUser s3 tid = some ⟨uid, c - CREDITS_PER_MESSAGE, city, 2⟩) ∧
      (c < CREDITS_PER_MESSAGE →
        consume_user_message gen3 s2 tid = some (false, "insufficient_credits", s2)) := by
  refine ⟨save_user_to_database s tid uid c city 1,
    save_user_to_database (save_user_to_database s tid uid c city 1) tid uid c city 2,
    ?_, ?_, ?_, ?_, ?_, ?_⟩
  · unfold consume_user_message get_or_create_user
    rw [h]
    simp [FREE_MESSAGES_LIMIT]
  · exact lookupUser_save_self_same_city s tid ⟨uid, c, city, 0⟩ h uid c 1 (by decide)
  · have h1 : lookupUser (save_user_to_database s tid uid c city 1) tid
        = some ⟨uid, c, city, 1⟩ :=
      lookupUser_save_self_same_city s tid ⟨uid, c, city, 0⟩ h uid c 1 (by decide)
    unfold consume_user_message get_or_create_user
    rw [h1]
    simp [FREE_MESSAGES_LIMIT]
  · have h1 : lookupUser (save_user_to_database s tid uid c city 1) tid
        = some ⟨uid, c, city, 1⟩ :=
      lookupUser_save_self_same_city s tid ⟨uid, c, city, 0⟩ h uid c 1 (by decide)
    exact lookupUser_save_self_same_city _ tid ⟨uid, c, city, 1⟩ h1 uid c 2 (by decide)
  · intro hc
    have h2 : lookupUser
        (save_user_to_database (save_user_to_database s tid uid c city 1) tid uid c city 2)
        tid = some ⟨uid, c, city, 2⟩ := by
      have h1 : lookupUser (save_user_to_database s tid uid c city 1) tid
          = some ⟨uid, c, city, 1⟩ :=
        lookupUser_save_self_same_city s tid ⟨uid, c, city, 0⟩ h uid c 1 (by decide)
      exact lookupUser_save_self_same_city _ tid ⟨uid, c, city, 1⟩ h1 uid c 2 (by decide)
    refine ⟨save_user_to_database
        (save_user_to_database (save_user_to_database s tid uid c city 1) tid uid c city 2)
        tid uid (c - CREDITS_PER_MESSAGE) city 2, ?_, ?_⟩
    · unfold consume_user_message get_or_create_user
      rw [h2]
      simp [FREE_MESSAGES_LIMIT, hc]
    · exact lookupUser_save_self_same_city _ tid ⟨uid, c, city, 2⟩ h2 uid
        (c - CREDITS_PER_MESSAGE) 2 (by decide)
  · intro hc
    have h2 : lookupUser
        (save_user_to_database (save_user_to_database s tid uid c city 1) tid uid c city 2)
        tid = some ⟨uid, c, city, 2⟩ := by
      have h1 : lookupUser (save_user_to_database s tid uid c city 1) tid
          = some ⟨uid, c, city, 1⟩ :=
        lookupUser_save_self_same_city s tid ⟨uid, c, city, 0⟩ h uid c 1 (by decide)
      exact lookupUser_save_self_same_city _ tid ⟨uid, c, city, 1⟩ h1 uid c 2 (by decide)
    unfold consume_user_message get_or_create_user
    rw [h2]
    have hc' : ¬ CREDITS_PER_MESSAGE ≤ c := not_le.mpr hc
    simp [FREE_MESSAGES_LIMIT, hc']

theorem fresh_record_consume_sequence_witness :
    ∃ s1 s2,
      consume_user_message [] [(9, ⟨"EEEEE", 3, "Bari", 0⟩)] 9
        = some (true, "free_message_used", s1) ∧
      lookupUser s1 9 = some ⟨"EEEEE", 3, "Bari", 1⟩ ∧
      consume_user_message [] s1 9 = some (true, "free_message_used", s2) ∧
      lookupUser s2 9 = some ⟨"EEEEE", 3, "Bari", 2⟩ ∧
      (CREDITS_PER_MESSAGE ≤ 3 →
        ∃ s3, consume_user_message [] s2 9 = some (true, "credits_used", s3) ∧
          lookupUser s3 9 = some ⟨"EEEEE", 3 - CREDITS_PER_MESSAGE, "Bari", 2⟩) ∧
      ((3 : Int) < CREDITS_PER_MESSAGE →
        consume_user_message [] s2 9 = some (false, "insufficient_credits", s2)) :=
  fresh_record_consume_sequence [] [] [] [(9, ⟨"EEEEE", 3, "Bari", 0⟩)] 9
    "EEEEE" "Bari" 3 (by decide)

/-- C7 counterexample: a quota check on an identity with no stored
record creates and persists a fresh record, so the durable store after
the check differs from the store before it. -/
theorem check_mutates_on_unseen_identity :
    can_user_send_message ["AAAAA"] [] 0
      = some (true, "free", [(0, ⟨"AAAAA", 0, "non selezionata", 0⟩)]) ∧
    ([(0, (⟨"AAAAA", 0, "non selezionata", 0⟩ : UserData))] : Store) ≠ ([] : Store) := by
  constructor
  · rfl
  · decide

/-- C7 amended: for every identity that already has a stored record, a
quota check not followed by a consume causes zero mutation of the
durable store (checks on unseen identities persist a fresh record). -/
theorem check_pure_for_existing (gen : List String) (s : Store) (tid : Nat)
    (d : UserData) (h : lookupUser s tid = some d) :
    ∃ ok via, can_user_send_message gen s tid = some (ok, via, s) := by
  unfold can_user_send_message get_or_create_user
  rw [h]
  by_cases h1 : d.free_messages_used < FREE_MESSAGES_LIMIT
  · exact ⟨true, "free", by simp [h1]⟩
  · by_cases h2 : CREDITS_PER_MESSAGE ≤ d.credits
    · exact ⟨true, "credits", by simp [h1, h2]⟩
    · exact ⟨false, "no_credits", by simp [h1, h2]⟩

theorem check_pure_for_existing_witness :
    ∃ ok via,
      can_user_send_message [] [(3, ⟨"DDDDD", 0, "Roma", 2⟩)] 3
        = some (ok, via, [(3, ⟨"DDDDD", 0, "Roma", 2⟩)]) :=
  check_pure_for_existing [] [(3, ⟨"DDDDD", 0, "Roma", 2⟩)] 3
    ⟨"DDDDD", 0, "Roma", 2⟩ (by decide)

/-! Uniqueness of the public codes (claim C2). -/

/-- The unique codes of all records, in file order. -/
def storeCodes (s : Store) : List String := s.map (fun p => p.2.unique_id)

/-- All public codes of the store are pairwise distinct. -/
def codesNodup (s : Store) : Prop := (storeCodes s).Nodup

instance (s : Store) : Decidable (codesNodup s) := by
  unfold codesNodup; infer_instance

theorem fresh_unique_id_not_used (gen : List String) (s : Store) (uid : String)
    (h : fresh_unique_id gen s = some uid) : codeUsed s uid = false := by
  induction gen with
  | nil => simp [fresh_unique_id] at h
  | cons c rest ih =>
      by_cases hc : codeUsed s c
      · simp [fresh_unique_id, hc] at h
        exact ih h
      · simp [fresh_unique_id, hc] at h
        subst h
        simpa using hc

theorem codeUsed_false_iff (s : Store) (uid : String) :
    codeUsed s uid = false ↔ ∀ p ∈ s, p.2.unique_id ≠ uid := by
  simp [codeUsed]

/-- Each `get_or_create_user` call preserves pairwise distinctness of
the public codes: creation retries code generation until the candidate
collides with no existing record's code. -/
theorem get_or_create_user_codesNodup (gen : List String) (s : Store) (tid : Nat)
    (h : codesNodup s) (r : (String × Int × String × Nat) × Store)
    (hr : get_or_create_user gen s tid = some r) : codesNodup r.2 := by
  unfold get_or_create_user at hr
  rcases hl : lookupUser s tid with _ | d <;> rw [hl] at hr
  · rcases hf : fresh_unique_id gen s with _ | uid <;> rw [hf] at hr
    · exact absurd hr (by simp)
    · have hr2 : r.2 = save_user_to_database s tid uid 0 "non selezionata" 0 := by
        have := (Option.some_injective _ hr).symm
        rw [this]
      have hk : hasKey s tid = false := (lookupUser_eq_none_iff s tid).1 hl
      have hsave : save_user_to_database s tid uid 0 "non selezionata" 0
          = s ++ [(tid, ⟨uid, 0, "non selezionata", 0⟩)] := by
        unfold save_user_to_database setUser
        rw [hl]
        simp [hk]
      have hused : codeUsed s uid = false := fresh_unique_id_not_used gen s uid hf
      have hnotmem : uid ∉ storeCodes s := by
        intro hmem
        obtain ⟨p, hp, hpe⟩ := List.mem_map.1 hmem
        exact ((codeUsed_false_iff s uid).1 hused p hp) hpe
      rw [hr2, hsave]
      unfold codesNodup storeCodes at h ⊢
      rw [List.map_append]
      refine List.Nodup.append h (by simp) ?_
      intro x hx hx2
      simp at hx2
      subst hx2
      exact hnotmem hx
  · have hr2 : r.2 = s := by
      have := (Option.some_injective _ hr).symm
      rw [this]
    rw [hr2]; exact h

/-- Run a sequence of `get_or_create_user` calls, each with its own
random-code stream; a call whose stream is exhausted (the nonterminating
retry loop) leaves the store as it was. -/
def runGetOrCreates (s : Store) : List (List String × Nat) → Store
  | [] => s
  | (gen, tid) :: rest =>
      match get_or_create_user gen s tid with
      | some (_, s1) => runGetOrCreates s1 rest
      | none => runGetOrCreates s rest

/-- C2: starting from any store with pairwise-distinct public codes (in
particular the empty store), every sequence of `get_or_create_user`
calls leaves all records' public codes pairwise distinct. -/
theorem public_codes_pairwise_distinct (s : Store) (h : codesNodup s)
    (calls : List (List String × Nat)) : codesNodup (runGetOrCreates s calls) := by
  induction calls generalizing s with
  | nil => simpa [runGetOrCreates] using h
  | cons call rest ih =>
      obtain ⟨gen, tid⟩ := call
      unfold runGetOrCreates
      rcases hg : get_or_create_user gen s tid with _ | r
      · exact ih s h
      · obtain ⟨t4, s1⟩ := r
        have h1 : codesNodup s1 :=
          get_or_create_user_codesNodup gen s tid h (t4, s1) hg
        exact ih s1 h1

theorem public_codes_pairwise_distinct_witness :
    codesNodup
      (runGetOrCreates []
        [(["AAAAA"], 1), (["AAAAA", "BBBBB"], 2), ([], 3), (["CCCCC"], 1)]) :=
  public_codes_pairwise_distinct [] (by decide)
    [(["AAAAA"], 1), (["AAAAA", "BBBBB"], 2), ([], 3), (["CCCCC"], 1)]

/-! Absolute-set semantics of the recharge command (claim C4). -/

/-- All Telegram ids of the store are pairwise distinct (true of every
store the code produces, since a Python dict cannot repeat a key). -/
def keysNodup (s : Store) : Prop := (s.map Prod.fst).Nodup

instance (s : Store) : Decidable (keysNodup s) := by
  unfold keysNodup; infer_instance

theorem replaceKey_of_not_hasKey (s : Store) (tid : Nat) (d : UserData)
    (h : hasKey s tid = false) : replaceKey s tid d = s := by
  induction s with
  | nil => rfl
  | cons q rest ih =>
      obtain ⟨k, d0⟩ := q
      simp [hasKey] at h
      simp [replaceKey, h.1, ih h.2]

theorem setUser_cons_ne (k tid : Nat) (d0 : UserData) (t : Store) (d : UserData)
    (hk : k ≠ tid) : setUser ((k, d0) :: t) tid d = (k, d0) :: setUser t tid d := by
  by_cases h : hasKey t tid <;>
    simp [setUser, hasKey, hk, h, replaceKey]

theorem find_user_key_mem (s : Store) (uid : String) (tid : Nat) (c : Int)
    (city : String) (h : find_user_by_unique_id s uid = some (tid, c, city)) :
    tid ∈ s.map Prod.fst := by
  induction s with
  | nil => simp [find_user_by_unique_id] at h
  | cons q rest ih =>
      obtain ⟨k, d0⟩ := q
      by_cases hq : d0.unique_id = uid
      · simp [find_user_by_unique_id, hq] at h
        simp [h.1]
      · simp [find_user_by_unique_id, hq] at h
        simp [ih h]

theorem map_fst_replaceKey (s : Store) (tid : Nat) (d : UserData) :
    (replaceKey s tid d).map Prod.fst = s.map Prod.fst := by
  induction s with
  | nil => rfl
  | cons q rest ih =>
      obtain ⟨k, d0⟩ := q
      by_cases hk : k = tid <;> simp [replaceKey, hk, ih]

theorem hasKey_iff_mem (s : Store) (t : Nat) :
    hasKey s t = true ↔ t ∈ s.map Prod.fst := by
  induction s with
  | nil => simp [hasKey]
  | cons q rest ih =>
      obtain ⟨k, d0⟩ := q
      by_cases hk : k = t
      · subst hk
        simp [hasKey]
      · have hk2 : ¬ t = k := fun hc => hk hc.symm
        simp [hasKey, hk, hk2, ih]

theorem keysNodup_setUser (s : Store) (tid : Nat) (d : UserData)
    (h : keysNodup s) : keysNodup (setUser s tid d) := by
  unfold setUser
  by_cases hh : hasKey s tid
  · simpa [hh, keysNodup, map_fst_replaceKey] using h
  · have hmem : tid ∉ s.map Prod.fst := by
      intro hmem
      exact hh ((hasKey_iff_mem s tid).2 hmem)
    unfold keysNodup at h ⊢
    rw [if_neg hh, List.map_append, List.nodup_append]
    refine ⟨h, by simp, ?_⟩
    intro x hx hx2
    simp at hx2
    subst hx2
    exact hmem hx

/-- Stability of the code lookup under an in-place update of the found
identity: if the first record carrying code `uid` sits at key `tid`, the
keys are pairwise distinct, and the new record keeps code `uid`, then
after the update the code lookup still lands on `tid`, now reporting the
new credits and city. -/
theorem find_user_setUser_stable (s : Store) (tid : Nat) (uid : String) (c0 : Int)
    (city0 : String) (hk : keysNodup s)
    (hf : find_user_by_unique_id s uid = some (tid, c0, city0))
    (d : UserData) (hd : d.unique_id = uid) :
    find_user_by_unique_id (setUser s tid d) uid = some (tid, d.credits, d.city) := by
  induction s with
  | nil => simp [find_user_by_unique_id] at hf
  | cons q rest ih =>
      obtain ⟨k, d0⟩ := q
      have hk' : k ∉ rest.map Prod.fst ∧ keysNodup rest := by
        unfold keysNodup at hk
        simpa [List.nodup_cons] using hk
      by_cases hq : d0.unique_id = uid
      · simp [find_user_by_unique_id, hq] at hf
        obtain ⟨hk1, -, -⟩ := hf
        subst hk1
        have hkt : hasKey rest k = false := by
          rcases hht : hasKey rest k with _ | _
          · rfl
          · exact absurd ((hasKey_iff_mem rest k).1 hht) hk'.1
        have hset : setUser ((k, d0) :: rest) k d = (k, d) :: rest := by
          simp [setUser, hasKey, replaceKey, replaceKey_of_not_hasKey rest k d hkt]
        rw [hset]
        simp [find_user_by_unique_id, hd]
      · simp [find_user_by_unique_id, hq] at hf
        by_cases hkt : k = tid
        · exfalso
          subst hkt
          exact hk'.1 (find_user_key_mem rest uid k c0 city0 hf)
        · rw [setUser_cons_ne k tid d0 rest d hkt]
          simp [find_user_by_unique_id, hq]
          exact ih hk'.2 hf

/-- A recharge with a non-negative amount on a consistent store is
exactly an in-place overwrite of the target record, with the balance set
to the amount and code, city and free-message count untouched. -/
theorem recharge_step (gen : List String) (s : Store) (tid : Nat) (uid city0 : String)
    (c0 : Int) (f0 : Nat) (a : Int)
    (hf : find_user_by_unique_id s uid = some (tid, c0, city0))
    (hl : lookupUser s tid = some ⟨uid, c0, city0, f0⟩) (ha : 0 ≤ a) :
    handle_recharge_command gen s a uid = setUser s tid ⟨uid, a, city0, f0⟩ := by
  have ha' : ¬ a < 0 := not_lt.mpr ha
  simp [handle_recharge_command, get_or_create_user, save_user_to_database, ha', hf, hl]

/-- C4: the recharge command sets the credit balance absolutely rather
than additively: recharging to `a` and then to `b` leaves the balance at
`b` (not `a + b`), and each recharge preserves the record's city and
free-message count. -/
theorem recharge_sets_absolute (gen1 gen2 : List String) (s : Store) (tid : Nat)
    (uid city0 : String) (c0 : Int) (f0 : Nat) (a b : Int)
    (hk : keysNodup s)
    (hf : find_user_by_unique_id s uid = some (tid, c0, city0))
    (hl : lookupUser s tid = some ⟨uid, c0, city0, f0⟩)
    (ha : 0 ≤ a) (hb : 0 ≤ b) :
    lookupUser (handle_recharge_command gen1 s a uid) tid = some ⟨uid, a, city0, f0⟩ ∧
    lookupUser
        (handle_recharge_command gen2 (handle_recharge_command gen1 s a uid) b uid) tid
      = some ⟨uid, b, city0, f0⟩ := by
  have h1 : handle_recharge_command gen1 s a uid = setUser s tid ⟨uid, a, city0, f0⟩ :=
    recharge_step gen1 s tid uid city0 c0 f0 a hf hl ha
  have hl1 : lookupUser (handle_recharge_command gen1 s a uid) tid
      = some ⟨uid, a, city0, f0⟩ := by
    rw [h1]; exact lookupUser_setUser_self ..
  refine ⟨hl1, ?_⟩
  have hf1 : find_user_by_unique_id (handle_recharge_command gen1 s a uid) uid
      = some (tid, a, city0) := by
    rw [h1]
    exact find_user_setUser_stable s tid uid c0 city0 hk hf ⟨uid, a, city0, f0⟩ rfl
  have h2 : handle_recharge_command gen2 (handle_recharge_command gen1 s a uid) b uid
      = setUser (handle_recharge_command gen1 s a uid) tid ⟨uid, b, city0, f0⟩ :=
    recharge_step gen2 _ tid uid city0 a f0 b hf1 hl1 hb
  rw [h2]
  exact lookupUser_setUser_self ..

theorem recharge_sets_absolute_witness :
    lookupUser
        (handle_recharge_command [] [(4, ⟨"FFFFF", 7, "Napoli", 1⟩)] 50 "FFFFF") 4
      = some ⟨"FFFFF", 50, "Napoli", 1⟩ ∧
    lookupUser
        (handle_recharge_command []
          (handle_recharge_command [] [(4, ⟨"FFFFF", 7, "Napoli", 1⟩)] 50 "FFFFF")
          10 "FFFFF") 4
      = some ⟨"FFFFF", 10, "Napoli", 1⟩ :=
  recharge_sets_absolute [] [] [(4, ⟨"FFFFF", 7, "Napoli", 1⟩)] 4 "FFFFF" "Napoli"
    7 1 50 10 (by decide) (by decide) (by decide) (by decide) (by decide)

/-- C5 counterexample: save followed by get does not return the record
passed to save when its city is the sentinel or its free-message count
is zero over differing stored values: saving
`(1, "ABCDE", 5, "non selezionata", 0)` over a store holding city
`"Roma"` and count `1` yields back city `"Roma"` and count `1`, not the
saved record's fields. -/
theorem save_roundtrip_cex :
    get_or_create_user []
        (save_user_to_database [(1, ⟨"ABCDE", 5, "Roma", 1⟩)] 1 "ABCDE" 5
          "non selezionata" 0) 1
      = some (("ABCDE", 5, "Roma", 1), [(1, ⟨"ABCDE", 5, "Roma", 1⟩)]) ∧
    ("Roma" ≠ "non selezionata" ∧ (1 : Nat) ≠ 0) := by
  exact ⟨by decide, by decide⟩

/-- C5 amended: save followed by `get_or_create_user` on the same
identity returns exactly the saved fields, for every record whose city
is not the sentinel `"non selezionata"` and whose free-message count is
non-zero (for sentinel arguments, save preserves the previously stored
values instead). -/
theorem save_roundtrip (gen : List String) (s : Store) (tid : Nat) (uid : String)
    (c : Int) (city : String) (f : Nat)
    (hc : city ≠ "non selezionata") (hf : f ≠ 0) :
    get_or_create_user gen (save_user_to_database s tid uid c city f) tid
      = some ((uid, c, city, f), save_user_to_database s tid uid c city f) := by
  have hl : lookupUser (save_user_to_database s tid uid c city f) tid
      = some ⟨uid, c, city, f⟩ := by
    cases hsl : lookupUser s tid with
    | none => exact lookupUser_save_self_new s tid hsl uid c city f
    | some d =>
        rw [lookupUser_save_self s tid d hsl uid c city f]
        simp [hc, hf]
  unfold get_or_create_user
  rw [hl]

theorem save_roundtrip_witness :
    get_or_create_user []
        (save_user_to_database [(1, ⟨"ABCDE", 5, "Roma", 1⟩)] 8 "GGGGG" 2 "Milano" 1) 8
      = some (("GGGGG", 2, "Milano", 1),
          save_user_to_database [(1, ⟨"ABCDE", 5, "Roma", 1⟩)] 8 "GGGGG" 2 "Milano" 1) :=
  save_roundtrip [] [(1, ⟨"ABCDE", 5, "Roma", 1⟩)] 8 "GGGGG" 2 "Milano" 1
    (by decide) (by decide)

/-!
The response engine (`get_contextual_response` and `query_huggingface_ai`,
main.py 472-664). Python string primitives are embedded as structural
recursion over the character list `String.data`: `lower()` maps
`Char.toLower` (ASCII case folding), `strip()` drops whitespace at both
ends, `in` is contiguous-substring containment, `split()` is splitting
on a non-empty separator.
-/

/-- Does the first list start with the second one. -/
def startsWithCh : List Char → List Char → Bool
  | _, [] => true
  | [], _ :: _ => false
  | b :: bs, a :: as => a == b && startsWithCh bs as

/-- Does the first list contain the second as a contiguous sublist. -/
def containsSub : List Char → List Char → Bool
  | [], needle => needle.isEmpty
  | h :: t, needle => startsWithCh (h :: t) needle || containsSub t needle

/-- Python `needle in hay` on strings. -/
def strContains (hay needle : String) : Bool := containsSub hay.data needle.data

/-- Python `s.lower()` (ASCII case folding). -/
def pyLower (s : String) : String := ⟨s.data.map Char.toLower⟩

/-- Python `s.strip()`: drop whitespace at both ends. -/
def pyStrip (s : String) : String :=
  ⟨((s.data.dropWhile Char.isWhitespace).reverse.dropWhile Char.isWhitespace).reverse⟩

/-- Python `s.split(sep)` over character lists, for a non-empty
separator (Python raises on an empty one; the callers below always pass
a label ending in a colon). -/
def splitOnList (sep : List Char) : List Char → List (List Char)
  | [] => [[]]
  | h :: t =>
      if startsWithCh (h :: t) sep && !sep.isEmpty then
        [] :: splitOnList sep (List.drop (sep.length - 1) t)
      else
        match splitOnList sep t with
        | [] => [[h]]
        | r :: rs => (h :: r) :: rs
termination_by l => l.length
decreasing_by
  all_goals simp [List.length_drop]
  omega

/-- Python `s.split(sep)` on strings. -/
def pySplit (s sep : String) : List String :=
  (splitOnList sep.data s.data).map (fun l => ⟨l⟩)

/-- Python `random.choice` with the random index made explicit: the element at
`i` modulo the length (the default is never reached on the non-empty
candidate lists below). -/
def random_choice (i : Nat) (l : List String) : String := l.getD (i % l.length) ""

/-- The keyword table `response_patterns` of `get_contextual_response`
(main.py 479-575), in dict insertion order; the f-strings interpolating
the persona name become explicit appends. -/
def response_patterns (profile_name : String) : List (String × List String) :=
  [("ciao",
    ["Ciao bello! 😈 Hai voglia di giocare con me?",
     "Ehi tesoro! 🔥 Mi hai fatto venire voglia di te...",
     "Ciao amore! 💋 Spero tu sia pronto per me!"]),
   ("grazie",
    ["Prego baby! 😏 Ora tocca a te farmi felice...",
     "Figurati! 🔥 Dimmi cosa vorresti fare con me...",
     "Di niente sexy! 💋 Raccontami le tue fantasie!"]),
   ("bene",
    ["Perfetto! 😈 Anch\x27io sto bene... anzi bollente!",
     "Fantastico! 🔥 Io sono tutta eccitata oggi!",
     "Che bello! 💋 Dimmi, hai voglia di divertirti?"]),
   ("come va",
    ["Benissimo! 😈 Sto pensando a te nudo... e tu?",
     "Alla grande! 🔥 Ho una voglia matta di te!",
     "Perfetto! 💋 Sono tutta calda oggi! Raccontami di te!",
     "Benissimo grazie! 😏 Stavo fantasticando su di te...",
     "Molto bene! 🔥 Ho fatto sogni piccanti stanotte!"]),
   ("come stai",
    ["Benissimo! 😈 Ma sarei meglio se fossi qui con me...",
     "Alla grande! 🔥 Tu invece... hai voglia di me?",
     "Perfetta! 💋 Soprattutto ora che ci sei tu!",
     "Molto bene! 😏 Sono sempre eccitata quando parlo con te!"]),
   ("cosa fai",
    ["Sto pensando a te! 😈 E a quello che vorrei farti...",
     "Niente di speciale... 🔥 Ma ho certe fantasie...",
     "Stavo toccandomi pensando a te! 💋 Tu cosa fai?",
     "Sto qui tutta nuda ad aspettarti! 😏 E tu?"]),
   ("bello",
    ["Grazie tesoro! 🔥 Tu invece mi fai venire voglia...",
     "Sei dolce! 😈 Ma io sono anche molto cattiva...",
     "Aww! 💋 Tu mi fai sentire così sexy!"]),
   ("casino",
    ["Il casino? 😏 Preferisco giocare con te... se capisci cosa intendo!",
     "Anche tu giochi? 🔥 Io preferisco altri tipi di giochi... più intimi!",
     "Al casino? 😈 Io scommetterei tutto su di noi due insieme!"]),
   ("scopo",
    ["Oh mio dio! 😈 Sei proprio diretto! Mi piacciono gli uomini così...",
     "Che cattivo che sei! 🔥 Ma ammetto che mi ecciti...",
     "Mmm... 💋 Parli come uno che sa quello che vuole!"]),
   ("madre",
    ["Che maleducato! 😏 Ma devo ammettere che mi piace quando sei così...",
     "Ooh! 😈 Hai un caratterino! Mi eccita quando ti arrabbi...",
     "Che linguaggio! 🔥 Ma sai cosa? Mi stai facendo venire voglia..."]),
   ("come ti chiami",
    ["Mi chiamo " ++ profile_name ++ "! 😈 E tu come ti chiami, bello?",
     "Sono " ++ profile_name ++ "! 🔥 Ma puoi chiamarmi come vuoi... anche \x27mia\x27!",
     profile_name ++ ", piacere! 💋 Spero di piacere anche a te!"]),
   ("nome",
    ["Il mio nome è " ++ profile_name ++ "! 😈 Ma tu urlalo quando...",
     "Sono " ++ profile_name ++ "! 🔥 Dimmi il tuo, così so come chiamarti!",
     "Mi chiamo " ++ profile_name ++ "! 💋 Ma preferisco quando mi chiami \x27baby\x27!"]),
   ("cosa mi faresti",
    ["Ti farei impazzire! 😈 Ti toccherei ovunque finché non implori...",
     "Mmm... tante cose cattive! 🔥 Ti farei venire voglia come non mai!",
     "Inizierei baciandoti il collo... 💋 poi scendiamo sempre più giù!",
     "Ti farei sentire come un re! 😏 E tu cosa faresti a me?",
     "Oh tesoro... 🔥 ti farei cose che non hai mai provato!"]),
   ("faresti",
    ["Ti farei impazzire di piacere! 😈 Dimmi dove vorresti essere toccato...",
     "Tante cose piccanti! 🔥 Vuoi che te le racconti tutte?",
     "Ti farei sentire in paradiso! 💋 E tu a me cosa faresti?",
     "Cose molto cattive! 😏 Sei pronto per me?"]),
   ("voglia",
    ["Anch\x27io ho tanta voglia di te! 😈 Vieni qui da me...",
     "La voglia che ho è incredibile! 🔥 Non riesco a smettere di pensarti!",
     "Ho una voglia matta! 💋 Dimmi cosa vuoi fare insieme...",
     "Sono tutta bagnata dalla voglia! 😏 Tu invece?"]),
   ("nudo",
    ["Mmm... mi piace come pensi! 😈 Anch\x27io sono senza niente addosso!",
     "Perfetto! 🔥 Così posso toccarti meglio ovunque!",
     "Che bello! 💋 Dimmi cosa vedi quando mi guardi nuda...",
     "Sono già pronta per te! 😏 Vieni a prendermi!"]),
   ("sesso",
    ["Oh sì baby! 😈 Sono sempre pronta per te!",
     "Mi piace quando parli così! 🔥 Raccontami le tue fantasie...",
     "Dimmi come lo vuoi! 💋 Sono tutta per te!",
     "Sono già eccitata solo a sentirti! 😏 Quando ci vediamo?"])]

/-- The tier-3 candidate replies for short inputs (main.py 591-597). -/
def short_responses : List String :=
  ["Dimmi di più, baby! 😈",
   "Ah sì? 🔥 Continua a eccitarmi!",
   "Interessante! 💋 Vai avanti!",
   "E poi? 😏 Non fermarti!",
   "Mmm... 🔥 Mi stai piacendo!"]

/-- The tier-3 candidate replies for long inputs (main.py 600-609). -/
def long_responses : List String :=
  ["Mi piace come parli! 😈 Continua così che mi ecciti!",
   "Interessante! 🔥 Dimmi di più, mi stai facendo venire voglia!",
   "Ah sì? 💋 Raccontami tutto, sono tutta per te!",
   "Mi piaci quando parli così! 😏 Vai avanti!",
   "Sono curiosa! 🔥 Dimmi tutti i tuoi segreti!",
   "Hai catturato la mia attenzione! 😈 E non solo quella...",
   "Che sexy! 💋 Continua a parlarmi così!",
   "Mi stai facendo impazzire! 🔥 Non fermarti!"]

/-- The observable value of Python's stable
`sort(key=lambda x: x[0], reverse=True)` followed by `[0]`: the first
element, in original order, whose first component is maximal (a stable
descending sort moves exactly that element to the front). -/
def firstMax : List (Nat × List String) → Option (Nat × List String)
  | [] => none
  | x :: xs =>
      match firstMax xs with
      | none => some x
      | some y => if x.1 < y.1 then some y else some x

/-- Function `get_contextual_response` (main.py 472-610): collect the keywords
of the table contained in the lower-cased, stripped input together with
their lengths, let the longest match (earliest on a tie) win and choose
one of its candidate replies; with no match at all, choose from the
short-input or long-input tier-3 set according to the input length. The
unused `conversation_history` parameter is omitted. -/
def get_contextual_response (choiceIdx : Nat) (prompt profile_name : String) : String :=
  match firstMax ((response_patterns profile_name).filterMap
      (fun kr => if strContains (pyStrip (pyLower prompt)) kr.1
        then some (kr.1.length, kr.2) else none)) with
  | some m => random_choice choiceIdx m.2
  | none =>
      if (pyStrip (pyLower prompt)).length < 10 then random_choice choiceIdx short_responses
      else random_choice choiceIdx long_responses

/-- The outcome of the primary Hugging Face call as observed by
`query_huggingface_ai`: a raised exception, or an HTTP response with a
status code and the `generated_text` field of the first element of the
JSON body (`none` when the body is not a non-empty list; a missing
field defaults to the empty string in the source, which is
`some ""` here). -/
inductive HFOutcome where
  | error
  | response (status : Nat) (generated_text : Option String)

/-- Extraction of the reply from the raw generated text
(main.py 642-650): strip, then keep what follows the last persona label,
or the last `User:` turn's text after its persona label. -/
def extract_reply (profile_name raw : String) : String :=
  let ai := pyStrip raw
  let label := profile_name ++ ":"
  if strContains ai label then pyStrip ((pySplit ai label).getLastD ai)
  else if strContains ai "User:" then
    let parts := pySplit ai "User:"
    if parts.length > 1 then pyStrip ((pySplit (parts.getLastD ai) label).getLastD ai)
    else ai
  else ai

/-- The stylistic markers checked before returning a primary reply
(main.py 655). -/
def emoji_markers : List String := ["😈", "🔥", "💋", "😏", "😊", "💕", "😘"]

/-- Function `query_huggingface_ai` (main.py 612-664): accept the primary reply
only on HTTP 200 with a well-formed body and an extracted text of sane
length, appending a marker when none is present; every other outcome
falls through to `get_contextual_response`. -/
def query_huggingface_ai (choiceIdx : Nat) (outcome : HFOutcome)
    (prompt profile_name : String) : String :=
  match outcome with
  | .error => get_contextual_response choiceIdx prompt profile_name
  | .response status generated_text =>
      if status = 200 then
        match generated_text with
        | some raw =>
            if extract_reply profile_name raw ≠ "" ∧
                3 < (extract_reply profile_name raw).length ∧
                (extract_reply profile_name raw).length < 200 then
              if emoji_markers.any (fun e => strContains (extract_reply profile_name raw) e)
                then extract_reply profile_name raw
              else extract_reply profile_name raw ++ " 😈"
            else get_contextual_response choiceIdx prompt profile_name
        | none => get_contextual_response choiceIdx prompt profile_name
      else get_contextual_response choiceIdx prompt profile_name

/-! Lemmas about the response engine. -/

theorem random_choice_mem (i : Nat) (l : List String) (h : l ≠ []) :
    random_choice i l ∈ l := by
  unfold random_choice
  have hlt : i % l.length < l.length := Nat.mod_lt _ (List.length_pos.2 h)
  rw [List.getD_eq_getElem l "" hlt]
  exact List.getElem_mem hlt

theorem random_choice_ne_empty (i : Nat) (l : List String) (h1 : l ≠ [])
    (h2 : ∀ r ∈ l, r ≠ "") : random_choice i l ≠ "" :=
  h2 _ (random_choice_mem i l h1)

theorem str_append_ne_empty (s t : String) (h : t ≠ "") : s ++ t ≠ "" := by
  intro hc
  apply h
  have hd := congrArg String.data hc
  rw [String.data_append] at hd
  exact String.ext (List.append_eq_nil.1 hd).2

theorem firstMax_cons_ne_none (x : Nat × List String) (xs : List (Nat × List String)) :
    firstMax (x :: xs) ≠ none := by
  unfold firstMax
  cases firstMax xs with
  | none => simp
  | some y => by_cases hlt : x.1 < y.1 <;> simp [hlt]

theorem firstMax_some (l : List (Nat × List String)) (h : l ≠ []) :
    ∃ m, firstMax l = some m := by
  cases l with
  | nil => exact absurd rfl h
  | cons x xs =>
      cases hm : firstMax (x :: xs) with
      | none => exact absurd hm (firstMax_cons_ne_none x xs)
      | some m => exact ⟨m, rfl⟩

theorem firstMax_mem (l : List (Nat × List String)) (m : Nat × List String)
    (h : firstMax l = some m) : m ∈ l := by
  induction l with
  | nil => simp [firstMax] at h
  | cons x xs ih =>
      unfold firstMax at h
      cases hx : firstMax xs with
      | none =>
          rw [hx] at h
          simp at h
          simp [h]
      | some y =>
          rw [hx] at h
          by_cases hlt : x.1 < y.1
          · simp [hlt] at h
            rw [h] at hx
            exact List.mem_cons_of_mem _ (ih hx)
          · simp [hlt] at h
            simp [h]

theorem firstMax_le (l : List (Nat × List String)) :
    ∀ m, firstMax l = some m → ∀ x ∈ l, x.1 ≤ m.1 := by
  induction l with
  | nil => intro m h; simp [firstMax] at h
  | cons x xs ih =>
      intro m h z hz
      unfold firstMax at h
      cases hx : firstMax xs with
      | none =>
          rw [hx] at h
          simp at h
          subst h
          cases xs with
          | nil =>
              simp at hz
              simp [hz]
          | cons a as => exact absurd hx (firstMax_cons_ne_none a as)
      | some y =>
          rw [hx] at h
          by_cases hlt : x.1 < y.1
          · simp [hlt] at h
            subst h
            rcases List.mem_cons.1 hz with rfl | hzx
            · exact le_of_lt hlt
            · exact ih y hx z hzx
          · simp [hlt] at h
            subst h
            rcases List.mem_cons.1 hz with rfl | hzx
            · exact le_refl _
            · exact (ih y hx z hzx).trans (not_lt.1 hlt)

/-- Every candidate list of the keyword table is non-empty and every
reply in it is a non-empty string, for any persona name. -/
theorem response_patterns_sound (pn : String) :
    ∀ p ∈ response_patterns pn, p.2 ≠ [] ∧ ∀ r ∈ p.2, r ≠ "" := by
  intro p hp
  simp only [response_patterns, List.mem_cons, List.not_mem_nil, or_false] at hp
  rcases hp with rfl | rfl | rfl | rfl | rfl | rfl | rfl | rfl | rfl | rfl | rfl | rfl |
    rfl | rfl | rfl | rfl | rfl
  all_goals first
    | exact ⟨by simp, by decide⟩
    | (refine ⟨by simp, ?_⟩
       intro r hr
       simp only [List.mem_cons, List.not_mem_nil, or_false] at hr
       rcases hr with rfl | rfl | rfl <;> exact str_append_ne_empty _ _ (by decide))

theorem short_responses_sound : short_responses ≠ [] ∧ ∀ r ∈ short_responses, r ≠ "" := by
  decide

theorem long_responses_sound : long_responses ≠ [] ∧ ∀ r ∈ long_responses, r ≠ "" := by
  decide

/-- The tier-2/tier-3 fallback returns a non-empty reply on every input
and persona. -/
theorem get_contextual_response_ne_empty (i : Nat) (prompt pn : String) :
    get_contextual_response i prompt pn ≠ "" := by
  unfold get_contextual_response
  cases hm : firstMax ((response_patterns pn).filterMap
      (fun kr => if strContains (pyStrip (pyLower prompt)) kr.1
        then some (kr.1.length, kr.2) else none)) with
  | none =>
      by_cases hlen : (pyStrip (pyLower prompt)).length < 10
      · simpa [hlen] using
          random_choice_ne_empty i short_responses short_responses_sound.1
            short_responses_sound.2
      · simpa [hlen] using
          random_choice_ne_empty i long_responses long_responses_sound.1
            long_responses_sound.2
  | some m =>
      have hmm : m ∈ (response_patterns pn).filterMap
          (fun kr => if strContains (pyStrip (pyLower prompt)) kr.1
            then some (kr.1.length, kr.2) else none) := firstMax_mem _ _ hm
      obtain ⟨p, hp, hf⟩ := List.mem_filterMap.1 hmm
      by_cases hc : strContains (pyStrip (pyLower prompt)) p.1 = true
      · rw [if_pos hc] at hf
        have hm2 : m.2 = p.2 := by rw [← Option.some_injective _ hf]
        have hsound := response_patterns_sound pn p hp
        show random_choice i m.2 ≠ ""
        rw [hm2]
        exact random_choice_ne_empty i p.2 hsound.1 hsound.2
      · rw [if_neg hc] at hf
        exact absurd hf (by simp)

/-- C9: the response cascade never fails outward: for every primary-call
outcome (error, bad status, malformed body, or unusable extracted
text), every input and every persona name, `query_huggingface_ai`
returns a non-empty reply — unusable primary outcomes fall through to
`get_contextual_response`, whose keyword and tier-3 candidate sets
contain only non-empty strings. -/
theorem generate_never_empty (choiceIdx : Nat) (outcome : HFOutcome)
    (prompt pn : String) :
    query_huggingface_ai choiceIdx outcome prompt pn ≠ "" := by
  have hctx : get_contextual_response choiceIdx prompt pn ≠ "" :=
    get_contextual_response_ne_empty choiceIdx prompt pn
  unfold query_huggingface_ai
  cases outcome with
  | error => exact hctx
  | response status gtext =>
      dsimp only
      by_cases hs : status = 200
      · cases gtext with
        | none =>
            simp only [hs, if_true]
            exact hctx
        | some raw =>
            by_cases hcond : extract_reply pn raw ≠ "" ∧
                3 < (extract_reply pn raw).length ∧ (extract_reply pn raw).length < 200
            · by_cases hemo : emoji_markers.any
                  (fun e => strContains (extract_reply pn raw) e) = true
              · simp only [hs, if_true, if_pos hcond, if_pos hemo]
                exact hcond.1
              · simp only [hs, if_true, if_pos hcond, if_neg hemo]
                exact str_append_ne_empty (extract_reply pn raw) " 😈" (by decide)
            · simp only [hs, if_true]
              rw [if_neg hcond]
              exact hctx
      · rw [if_neg hs]
        exact hctx

/-- C8: when the table keyword `k` occurs in the lower-cased stripped
input and every other matching keyword is strictly shorter, the reply
of the tier-2 fallback is drawn from the candidate set of `k` — the
longest matching keyword wins. -/
theorem longest_keyword_wins (choiceIdx : Nat) (prompt pn k : String)
    (rs : List String)
    (hmem : (k, rs) ∈ response_patterns pn)
    (hmatch : strContains (pyStrip (pyLower prompt)) k = true)
    (huniq : ∀ p ∈ response_patterns pn, p.1 = k → p = (k, rs))
    (hlongest : ∀ p ∈ response_patterns pn,
      strContains (pyStrip (pyLower prompt)) p.1 = true → p.1 ≠ k →
        p.1.length < k.length) :
    get_contextual_response choiceIdx prompt pn ∈ rs := by
  have hkm : (k.length, rs) ∈ (response_patterns pn).filterMap
      (fun kr => if strContains (pyStrip (pyLower prompt)) kr.1
        then some (kr.1.length, kr.2) else none) :=
    List.mem_filterMap.2 ⟨(k, rs), hmem, by simp [hmatch]⟩
  obtain ⟨m, hm⟩ := firstMax_some _ (List.ne_nil_of_mem hkm)
  have hle : k.length ≤ m.1 := firstMax_le _ m hm (k.length, rs) hkm
  have hmm : m ∈ (response_patterns pn).filterMap
      (fun kr => if strContains (pyStrip (pyLower prompt)) kr.1
        then some (kr.1.length, kr.2) else none) := firstMax_mem _ _ hm
  obtain ⟨p, hp, hf⟩ := List.mem_filterMap.1 hmm
  by_cases hc : strContains (pyStrip (pyLower prompt)) p.1 = true
  · rw [if_pos hc] at hf
    have hmp : m = (p.1.length, p.2) := (Option.some_injective _ hf).symm
    have hpk : p.1 = k := by
      by_contra hne
      have hlt := hlongest p hp hc hne
      rw [hmp] at hle
      simp at hle
      omega
    have hprs : p = (k, rs) := huniq p hp hpk
    unfold get_contextual_response
    rw [hm, hmp, hprs]
    exact random_choice_mem choiceIdx rs (response_patterns_sound pn (k, rs)
      (hprs ▸ hp)).1
  · rw [if_neg hc] at hf
    exact absurd hf (by simp)

theorem longest_keyword_wins_witness :
    get_contextual_response 0 "come stai" "Sofia" ∈
      ["Benissimo! 😈 Ma sarei meglio se fossi qui con me...",
       "Alla grande! 🔥 Tu invece... hai voglia di me?",
       "Perfetta! 💋 Soprattutto ora che ci sei tu!",
       "Molto bene! 😏 Sono sempre eccitata quando parlo con te!"] :=
  longest_keyword_wins 0 "come stai" "Sofia" "come stai"
    ["Benissimo! 😈 Ma sarei meglio se fossi qui con me...",
     "Alla grande! 🔥 Tu invece... hai voglia di me?",
     "Perfetta! 💋 Soprattutto ora che ci sei tu!",
     "Molto bene! 😏 Sono sempre eccitata quando parlo con te!"]
    (by decide) (by decide) (by decide) (by decide)
